import Mathlib

/-!
Verification of the CSV-to-HealthDCAT converter (`src/csv_to_healthdcat/converter.py`).

The development shallowly embeds the converter's record-to-triple mapping
(`CSVToHealthDCAT._add_dataset_to_graph`), the theme lookup
(`CSVToHealthDCAT._get_theme_uri`) and the orchestration (`CSVToHealthDCAT.convert_csv`)
as executable Lean functions, and proves the specified properties about them.

Modelling conventions:
- a CSV cell is either the pandas missing-value marker `NaN` (`CellValue.na`) or a
  text value (`CellValue.text`); a pandas row (`pd.Series`) is a finite association
  list from column name to cell value, in which a column may also be entirely absent;
- Python `str(v)` on a cell is `pyStr` (`str(nan) = "nan"`); `pd.notna` holds exactly
  on `text` values; `row.get(k, d)` returns the stored value — even `NaN` — whenever
  the key is present, and `d` only when the key is absent, as `pandas.Series.get` does;
- Python string helpers used by the converter (`upper`, `lower`, `replace(' ', '-')`,
  `split(';')`, `strip`) are embedded as executable functions over `String.data`;
- the rdflib `Graph` is a deduplicating triple store: it is modelled as a list of
  triples whose `add` operation is a no-op on an already-present triple;
- `urllib.parse.urljoin` is modelled for the only argument shapes the converter
  produces (a base URI and a plain relative path with no scheme and no leading
  slash): the base is truncated after its final `/`-separated segment and the
  relative path appended, per the RFC 3986 merge rule.
-/

namespace EHDS

/-- RDF node occurring in object position: either a URI reference or a literal. -/
inductive RDFNode where
  | uri (s : String)
  | lit (s : String)
deriving DecidableEq, Repr

/-- An RDF triple: subject URI, predicate URI, object node. -/
structure Triple where
  subj : String
  pred : String
  obj : RDFNode
deriving DecidableEq, Repr

/-- The `rdf:type` predicate. -/
def rdf_type : String := "http://www.w3.org/1999/02/22-rdf-syntax-ns#type"

/-- The `dcat:Dataset` class. -/
def dcat_Dataset : String := "http://www.w3.org/ns/dcat#Dataset"

/-- The `dcat:theme` predicate. -/
def dcat_theme : String := "http://www.w3.org/ns/dcat#theme"

/-- The `dcat:keyword` predicate. -/
def dcat_keyword : String := "http://www.w3.org/ns/dcat#keyword"

/-- The `dcat:landingPage` predicate. -/
def dcat_landingPage : String := "http://www.w3.org/ns/dcat#landingPage"

/-- The `dct:title` predicate. -/
def dct_title : String := "http://purl.org/dc/terms/title"

/-- The `dct:description` predicate. -/
def dct_description : String := "http://purl.org/dc/terms/description"

/-- The `dct:publisher` predicate. -/
def dct_publisher : String := "http://purl.org/dc/terms/publisher"

/-- The `dct:issued` predicate. -/
def dct_issued : String := "http://purl.org/dc/terms/issued"

/-- The `dct:modified` predicate. -/
def dct_modified : String := "http://purl.org/dc/terms/modified"

/-- The `dct:license` predicate. -/
def dct_license : String := "http://purl.org/dc/terms/license"

/-- The `foaf:Organization` class. -/
def foaf_Organization : String := "http://xmlns.com/foaf/0.1/Organization"

/-- The `foaf:name` predicate. -/
def foaf_name : String := "http://xmlns.com/foaf/0.1/name"

/-- A CSV cell as pandas delivers it: the missing-value marker `NaN`, or text. -/
inductive CellValue where
  | na
  | text (s : String)
deriving DecidableEq, Repr

/-- A record (one pandas row): association list from column name to cell value.
A column can be entirely absent from the list, which models a column that does
not exist in the data frame at all. -/
abbrev Record := List (String × CellValue)

/-- Python `str()` applied to a cell value: `str(nan)` is the text `nan`. -/
def pyStr : CellValue → String
  | CellValue.na => "nan"
  | CellValue.text s => s

/-- Embeds `str(row.get(k, dflt))` for a string default `dflt`:
`pandas.Series.get` returns the stored value (even `NaN`) when the key is
present and the default only when the key is absent. -/
def getStr (r : Record) (k : String) (dflt : String) : String :=
  match r.lookup k with
  | some v => pyStr v
  | none => dflt

/-- Splits a character list at every occurrence of `sep`, keeping empty groups,
like Python `str.split` with an explicit separator. -/
def splitCharList (sep : Char) : List Char → List (List Char)
  | [] => [[]]
  | c :: cs =>
    match splitCharList sep cs with
    | [] => [[]]
    | g :: gs => if c = sep then [] :: g :: gs else (c :: g) :: gs

/-- Embeds Python `s.split(sep)` for a one-character separator: empty pieces are
kept, and the empty string splits to one empty piece. -/
def pySplit (sep : Char) (s : String) : List String :=
  (splitCharList sep s.data).map String.mk

/-- Embeds Python `s.strip()`: removes leading and trailing whitespace. -/
def pyStrip (s : String) : String :=
  String.mk (((s.data.dropWhile Char.isWhitespace).reverse.dropWhile Char.isWhitespace).reverse)

/-- Embeds Python `s.upper()` on the ASCII letters the converter handles. -/
def pyUpper (s : String) : String := String.mk (s.data.map Char.toUpper)

/-- Embeds Python `s.lower()` on the ASCII letters the converter handles. -/
def pyLower (s : String) : String := String.mk (s.data.map Char.toLower)

/-- Embeds Python `s.replace(a, b)` for one-character `a` and `b`. -/
def pyReplaceChar (a b : Char) (s : String) : String :=
  String.mk (s.data.map (fun c => if c = a then b else c))

/-- Joins path segments back with `/` separators. -/
def joinWithSlash : List String → String
  | [] => ""
  | [p] => p
  | p :: ps => p ++ "/" ++ joinWithSlash ps

/-- Model of `urllib.parse.urljoin` for the shapes the converter passes: the base
URI is truncated after its final `/`-separated segment (a base ending in `/`
is kept whole) and the relative path is appended. -/
def urljoin (base rel : String) : String :=
  joinWithSlash ((pySplit '/' base).dropLast) ++ "/" ++ rel

/-- The theme lookup table of `_get_theme_uri` (converter.py lines 175-183). -/
def theme_mapping : List (String × String) :=
  [("HEALTH", "HEAL"), ("HEAL", "HEAL"), ("MEDICINE", "HEAL"), ("SCIENCE", "SCIE"),
   ("EDUCATION", "EDUC"), ("ENVIRONMENT", "ENVI"), ("TECHNOLOGY", "TECH")]

/-- The EU data-theme authority base used by `_get_theme_uri`. -/
def themeAuthorityBase : String := "http://publications.europa.eu/resource/authority/data-theme"

/-- Embeds `CSVToHealthDCAT._get_theme_uri`: look the theme up in the table,
defaulting to `HEAL`, and build the authority URI. -/
def get_theme_uri (theme : String) : String :=
  let mapped_theme := (theme_mapping.lookup theme).getD "HEAL"
  themeAuthorityBase ++ "/" ++ mapped_theme

/-- The Theme Classifier component: the caller (converter.py line 144) uppercases
the raw theme text and passes it to `_get_theme_uri`. -/
def classifyTheme (t : String) : String := get_theme_uri (pyUpper t)

/-- The publisher slug (converter.py line 124): spaces replaced by hyphens on the
original name, then lowercased. -/
def slugify (name : String) : String := pyLower (pyReplaceChar ' ' '-' name)

/-- The publisher resource URI (converter.py lines 123-125). -/
def publisherUri (base name : String) : String :=
  urljoin base ("organization/" ++ slugify name)

/-- The dataset identifier (converter.py line 105): `row.get("id", ...)` with the
synthesized fallback `dataset-<row_index + 1>`; a present-but-`NaN` `id`
stringifies through the f-string to `nan`. -/
def datasetId (r : Record) (row_index : Nat) : String :=
  getStr r "id" ("dataset-" ++ toString (row_index + 1))

/-- The dataset resource URI (converter.py line 106). -/
def datasetUri (base : String) (r : Record) (row_index : Nat) : String :=
  urljoin base ("dataset/" ++ datasetId r row_index)

/-- Step of `_add_dataset_to_graph` at line 109: the `rdf:type dcat:Dataset` triple. -/
def typePart (u : String) : List Triple :=
  [⟨u, rdf_type, RDFNode.uri dcat_Dataset⟩]

/-- Step at lines 112-113: the title triple, `str(row.get("title", "Unknown"))`. -/
def titlePart (u : String) (r : Record) : List Triple :=
  [⟨u, dct_title, RDFNode.lit (getStr r "title" "Unknown")⟩]

/-- Step at lines 116-118: the description triple, emitted only when
`str(row.get("description", ""))` is truthy, that is, non-empty. -/
def descriptionPart (u : String) (r : Record) : List Triple :=
  let description := getStr r "description" ""
  if description ≠ "" then [⟨u, dct_description, RDFNode.lit description⟩] else []

/-- Step at lines 121-128: when `publisher` is present and not `NaN`, the publisher
link plus the synthesized organization's type and name triples. -/
def publisherPart (base u : String) (r : Record) : List Triple :=
  match r.lookup "publisher" with
  | some (CellValue.text publisher_name) =>
    let publisher_uri := publisherUri base publisher_name
    [⟨u, dct_publisher, RDFNode.uri publisher_uri⟩,
     ⟨publisher_uri, rdf_type, RDFNode.uri foaf_Organization⟩,
     ⟨publisher_uri, foaf_name, RDFNode.lit publisher_name⟩]
  | _ => []

/-- Step at lines 130-133: the `issued` literal when present and not `NaN`. -/
def issuedPart (u : String) (r : Record) : List Triple :=
  match r.lookup "issued" with
  | some (CellValue.text s) => [⟨u, dct_issued, RDFNode.lit s⟩]
  | _ => []

/-- Step at lines 135-138: the `modified` literal when present and not `NaN`. -/
def modifiedPart (u : String) (r : Record) : List Triple :=
  match r.lookup "modified" with
  | some (CellValue.text s) => [⟨u, dct_modified, RDFNode.lit s⟩]
  | _ => []

/-- Step at lines 140-142: the `license` URI reference when present and not `NaN`. -/
def licensePart (u : String) (r : Record) : List Triple :=
  match r.lookup "license" with
  | some (CellValue.text s) => [⟨u, dct_license, RDFNode.uri s⟩]
  | _ => []

/-- Step at lines 144-148: the theme triple — uppercase the text, classify, emit. -/
def themePart (u : String) (r : Record) : List Triple :=
  match r.lookup "theme" with
  | some (CellValue.text s) => [⟨u, dcat_theme, RDFNode.uri (classifyTheme s)⟩]
  | _ => []

/-- Step at lines 150-155: split the keyword field on `;`, strip each piece, and
emit one keyword literal per piece — empty pieces included. -/
def keywordPart (u : String) (r : Record) : List Triple :=
  match r.lookup "keyword" with
  | some (CellValue.text s) =>
    (pySplit ';' s).map (fun keyword => ⟨u, dcat_keyword, RDFNode.lit (pyStrip keyword)⟩)
  | _ => []

/-- Step at lines 157-159: the `landing_page` URI reference when present and not `NaN`. -/
def landingPagePart (u : String) (r : Record) : List Triple :=
  match r.lookup "landing_page" with
  | some (CellValue.text s) => [⟨u, dcat_landingPage, RDFNode.uri s⟩]
  | _ => []

/-- Embeds `CSVToHealthDCAT._add_dataset_to_graph`: the ordered sequence of triples
the mapper adds to the graph for one record. -/
def add_dataset_to_graph (base : String) (r : Record) (row_index : Nat) : List Triple :=
  let u := datasetUri base r row_index
  typePart u ++ titlePart u r ++ descriptionPart u r ++ publisherPart base u r ++
    issuedPart u r ++ modifiedPart u r ++ licensePart u r ++ themePart u r ++
    keywordPart u r ++ landingPagePart u r

/-- The triple store: an rdflib `Graph` modelled as a duplicate-free insertion-ordered
list of triples. -/
abbrev Graph := List Triple

/-- Deduplicating add of the rdflib `Graph`: adding a present triple is a no-op. -/
def Graph.addTriple (g : Graph) (t : Triple) : Graph :=
  if t ∈ g then g else g ++ [t]

/-- Adds a sequence of triples in order. -/
def Graph.addList (g : Graph) (ts : List Triple) : Graph :=
  ts.foldl Graph.addTriple g

/-- The conversion loop (converter.py lines 91-92): map every record, in source
order, with its 0-based position. -/
def processRecords (base : String) (g : Graph) (records : List Record) : Graph :=
  records.enum.foldl (fun acc p => Graph.addList acc (add_dataset_to_graph base p.2 p.1)) g

/-- A parsed tabular source: the discovered columns and the data records. -/
structure Table where
  columns : List String
  records : List Record
deriving DecidableEq, Repr

/-- The errors `convert_csv` raises: `notFound` models `FileNotFoundError`;
`readFailure` and `missingColumns` both model `ValueError` (the latter carries
the missing required columns the message names). -/
inductive ConvError where
  | notFound (path : String)
  | readFailure
  | missingColumns (missing : List String)
deriving DecidableEq, Repr

/-- The required columns of `convert_csv` (converter.py line 84). -/
def requiredColumns : List String := ["title", "description"]

/-- Embeds `CSVToHealthDCAT.convert_csv`. Inputs: the base URI, the path, whether
the file exists, the parse outcome (`none` models a `pd.read_csv` failure;
`pandas` marks a data frame empty when either axis has length zero), and the
converter's current graph. Returns the outcome together with the converter's
store after the call, so that mutation on failing paths is observable. -/
def convert_csv (base path : String) (fileExists : Bool) (parsed : Option Table)
    (g : Graph) : Except ConvError Graph × Graph :=
  if fileExists = false then (Except.error (ConvError.notFound path), g)
  else
    match parsed with
    | none => (Except.error ConvError.readFailure, g)
    | some df =>
      if df.records.isEmpty || df.columns.isEmpty then (Except.ok g, g)
      else
        let missing_columns := requiredColumns.filter (fun c => !(df.columns.contains c))
        if missing_columns.isEmpty then
          let g2 := processRecords base g df.records
          (Except.ok g2, g2)
        else (Except.error (ConvError.missingColumns missing_columns), g)

/-- Embeds a "URI ending in" test (Python `s.endswith(t)`): suffix check. -/
def strEndsWith (s t : String) : Bool := t.data.isSuffixOf s.data

/-! Helper lemmas about uppercasing. -/

theorem toNat_ofNat_of_valid {n : Nat} (h : n.isValidChar) : (Char.ofNat n).toNat = n := by
  rw [Char.ofNat, dif_pos h]
  rfl

theorem char_toUpper_not_lower (c : Char) : ¬ (c.toUpper.toNat ≥ 97 ∧ c.toUpper.toNat ≤ 122) := by
  unfold Char.toUpper
  by_cases h : c.toNat ≥ 97 ∧ c.toNat ≤ 122
  · rw [if_pos h]
    have hv : Nat.isValidChar (c.toNat - 32) := Or.inl (by omega)
    rw [toNat_ofNat_of_valid hv]
    omega
  · rw [if_neg h]
    exact h

theorem char_toUpper_idem (c : Char) : c.toUpper.toUpper = c.toUpper := by
  have h := char_toUpper_not_lower c
  conv_lhs => rw [Char.toUpper]
  rw [if_neg h]

theorem pyUpper_idem (s : String) : pyUpper (pyUpper s) = pyUpper s := by
  simp only [pyUpper, List.map_map]
  congr 1
  apply List.map_congr_left
  intro c _
  exact char_toUpper_idem c

/-- Values looked up in an association list come from its value column. -/
theorem lookup_mem_values {α β : Type} [BEq α] (a : α) (b : β) :
    ∀ l : List (α × β), l.lookup a = some b → b ∈ l.map Prod.snd := by
  intro l
  induction l with
  | nil => intro h; simp [List.lookup] at h
  | cons p ps ih =>
    intro h
    cases p with
    | mk k v =>
      rw [List.lookup] at h
      cases hk : a == k with
      | true =>
        rw [hk] at h
        injection h with hb
        subst hb
        exact List.mem_cons_self _ _
      | false =>
        rw [hk] at h
        exact List.mem_cons_of_mem _ (ih h)

/-! Helper lemmas: how each emission step answers a filter by predicate. -/

theorem filter_typePart (u p : String) (h : (rdf_type == p) = false) :
    (typePart u).filter (fun t => t.pred == p) = [] := by
  simp [typePart, h]

theorem filter_titlePart_nil (u p : String) (r : Record) (h : (dct_title == p) = false) :
    (titlePart u r).filter (fun t => t.pred == p) = [] := by
  simp [titlePart, h]

theorem filter_titlePart_self (u : String) (r : Record) :
    (titlePart u r).filter (fun t => t.pred == dct_title) = titlePart u r := by
  simp [titlePart]

theorem filter_descriptionPart_nil (u p : String) (r : Record)
    (h : (dct_description == p) = false) :
    (descriptionPart u r).filter (fun t => t.pred == p) = [] := by
  by_cases hd : getStr r "description" "" = ""
  · simp [descriptionPart, hd]
  · simp [descriptionPart, hd, h]

theorem filter_descriptionPart_self (u : String) (r : Record) :
    (descriptionPart u r).filter (fun t => t.pred == dct_description) = descriptionPart u r := by
  by_cases hd : getStr r "description" "" = ""
  · simp [descriptionPart, hd]
  · simp [descriptionPart, hd]

theorem filter_publisherPart_nil (base u p : String) (r : Record)
    (h1 : (dct_publisher == p) = false) (h2 : (rdf_type == p) = false)
    (h3 : (foaf_name == p) = false) :
    (publisherPart base u r).filter (fun t => t.pred == p) = [] := by
  unfold publisherPart
  cases hv : r.lookup "publisher" with
  | none => rfl
  | some v => cases v with
    | na => rfl
    | text s => simp [h1, h2, h3]

theorem filter_issuedPart_nil (u p : String) (r : Record) (h : (dct_issued == p) = false) :
    (issuedPart u r).filter (fun t => t.pred == p) = [] := by
  unfold issuedPart
  cases hv : r.lookup "issued" with
  | none => rfl
  | some v => cases v with
    | na => rfl
    | text s => simp [h]

theorem filter_modifiedPart_nil (u p : String) (r : Record) (h : (dct_modified == p) = false) :
    (modifiedPart u r).filter (fun t => t.pred == p) = [] := by
  unfold modifiedPart
  cases hv : r.lookup "modified" with
  | none => rfl
  | some v => cases v with
    | na => rfl
    | text s => simp [h]

theorem filter_licensePart_nil (u p : String) (r : Record) (h : (dct_license == p) = false) :
    (licensePart u r).filter (fun t => t.pred == p) = [] := by
  unfold licensePart
  cases hv : r.lookup "license" with
  | none => rfl
  | some v => cases v with
    | na => rfl
    | text s => simp [h]

theorem filter_themePart_nil (u p : String) (r : Record) (h : (dcat_theme == p) = false) :
    (themePart u r).filter (fun t => t.pred == p) = [] := by
  unfold themePart
  cases hv : r.lookup "theme" with
  | none => rfl
  | some v => cases v with
    | na => rfl
    | text s => simp [h]

theorem filter_keywordPart_nil (u p : String) (r : Record) (h : (dcat_keyword == p) = false) :
    (keywordPart u r).filter (fun t => t.pred == p) = [] := by
  unfold keywordPart
  cases hv : r.lookup "keyword" with
  | none => rfl
  | some v => cases v with
    | na => rfl
    | text s =>
      apply List.filter_eq_nil_iff.mpr
      intro t ht
      simp only [List.mem_map] at ht
      obtain ⟨k, -, rfl⟩ := ht
      simp [h]

theorem filter_keywordPart_self (u : String) (r : Record) :
    (keywordPart u r).filter (fun t => t.pred == dcat_keyword) = keywordPart u r := by
  unfold keywordPart
  cases hv : r.lookup "keyword" with
  | none => rfl
  | some v => cases v with
    | na => rfl
    | text s =>
      apply List.filter_eq_self.mpr
      intro t ht
      simp only [List.mem_map] at ht
      obtain ⟨k, -, rfl⟩ := ht
      simp

theorem filter_landingPagePart_nil (u p : String) (r : Record)
    (h : (dcat_landingPage == p) = false) :
    (landingPagePart u r).filter (fun t => t.pred == p) = [] := by
  unfold landingPagePart
  cases hv : r.lookup "landing_page" with
  | none => rfl
  | some v => cases v with
    | na => rfl
    | text s => simp [h]

/-- The title triples the mapper emits for a record: always exactly the one
literal `str(row.get("title", "Unknown"))` on the dataset resource. -/
theorem mapper_filter_title (base : String) (r : Record) (pos : Nat) :
    (add_dataset_to_graph base r pos).filter (fun t => t.pred == dct_title) =
      [⟨datasetUri base r pos, dct_title, RDFNode.lit (getStr r "title" "Unknown")⟩] := by
  unfold add_dataset_to_graph
  simp only [List.filter_append]
  rw [filter_typePart _ _ (by decide), filter_titlePart_self,
    filter_descriptionPart_nil _ _ _ (by decide),
    filter_publisherPart_nil _ _ _ _ (by decide) (by decide) (by decide),
    filter_issuedPart_nil _ _ _ (by decide), filter_modifiedPart_nil _ _ _ (by decide),
    filter_licensePart_nil _ _ _ (by decide), filter_themePart_nil _ _ _ (by decide),
    filter_keywordPart_nil _ _ _ (by decide), filter_landingPagePart_nil _ _ _ (by decide)]
  simp [titlePart]

/-- The description triples the mapper emits for a record are exactly the
description step's output. -/
theorem mapper_filter_description (base : String) (r : Record) (pos : Nat) :
    (add_dataset_to_graph base r pos).filter (fun t => t.pred == dct_description) =
      descriptionPart (datasetUri base r pos) r := by
  unfold add_dataset_to_graph
  simp only [List.filter_append]
  rw [filter_typePart _ _ (by decide), filter_titlePart_nil _ _ _ (by decide),
    filter_descriptionPart_self,
    filter_publisherPart_nil _ _ _ _ (by decide) (by decide) (by decide),
    filter_issuedPart_nil _ _ _ (by decide), filter_modifiedPart_nil _ _ _ (by decide),
    filter_licensePart_nil _ _ _ (by decide), filter_themePart_nil _ _ _ (by decide),
    filter_keywordPart_nil _ _ _ (by decide), filter_landingPagePart_nil _ _ _ (by decide)]
  simp

/-- The keyword triples the mapper emits for a record are exactly the keyword
step's output. -/
theorem mapper_filter_keyword (base : String) (r : Record) (pos : Nat) :
    (add_dataset_to_graph base r pos).filter (fun t => t.pred == dcat_keyword) =
      keywordPart (datasetUri base r pos) r := by
  unfold add_dataset_to_graph
  simp only [List.filter_append]
  rw [filter_typePart _ _ (by decide), filter_titlePart_nil _ _ _ (by decide),
    filter_descriptionPart_nil _ _ _ (by decide),
    filter_publisherPart_nil _ _ _ _ (by decide) (by decide) (by decide),
    filter_issuedPart_nil _ _ _ (by decide), filter_modifiedPart_nil _ _ _ (by decide),
    filter_licensePart_nil _ _ _ (by decide), filter_themePart_nil _ _ _ (by decide),
    filter_keywordPart_self, filter_landingPagePart_nil _ _ _ (by decide)]
  simp

/-- C1 (amended): the mapper always emits exactly one title triple, whose literal
is `str(row.get("title", "Unknown"))`: the default `Unknown` appears exactly when
the `title` key is absent from the record; a present-but-blank title (the pandas
missing-value marker) yields the literal `nan`, and a present text title yields
that text unchanged. -/
theorem C1_title_amended (base : String) (r : Record) (pos : Nat) :
    ((add_dataset_to_graph base r pos).filter (fun t => t.pred == dct_title) =
      [⟨datasetUri base r pos, dct_title, RDFNode.lit (getStr r "title" "Unknown")⟩]) ∧
    (r.lookup "title" = none → getStr r "title" "Unknown" = "Unknown") ∧
    (r.lookup "title" = some CellValue.na → getStr r "title" "Unknown" = "nan") ∧
    (∀ s, r.lookup "title" = some (CellValue.text s) → getStr r "title" "Unknown" = s) := by
  refine ⟨mapper_filter_title base r pos, ?_, ?_, ?_⟩
  · intro h
    simp [getStr, h]
  · intro h
    simp [getStr, h, pyStr]
  · intro s h
    simp [getStr, h, pyStr]

/-- C1 witness: concrete records exercising each case of `C1_title_amended`. -/
theorem C1_title_amended_witness :
    getStr ([] : Record) "title" "Unknown" = "Unknown" ∧
    getStr [("title", CellValue.na)] "title" "Unknown" = "nan" ∧
    getStr [("title", CellValue.text "T")] "title" "Unknown" = "T" ∧
    (add_dataset_to_graph "http://example.org/" [] 0).filter (fun t => t.pred == dct_title) =
      [⟨datasetUri "http://example.org/" [] 0, dct_title, RDFNode.lit "Unknown"⟩] := by
  refine ⟨(C1_title_amended "http://example.org/" [] 0).2.1 rfl,
    (C1_title_amended "http://example.org/" [("title", CellValue.na)] 0).2.2.1 rfl,
    (C1_title_amended "http://example.org/" [("title", CellValue.text "T")] 0).2.2.2 "T" rfl, ?_⟩
  rw [(C1_title_amended "http://example.org/" [] 0).1,
    (C1_title_amended "http://example.org/" [] 0).2.1 rfl]

/-- C1 is false as stated: a record whose `title` is present but blank (the pandas
missing-value marker `NaN`) gets the title literal `nan`, not `Unknown`. -/
theorem C1_counterexample :
    ((add_dataset_to_graph "http://example.org/" [("title", CellValue.na)] 0).filter
        (fun t => t.pred == dct_title) =
      [⟨"http://example.org/dataset/dataset-1", dct_title, RDFNode.lit "nan"⟩]) ∧
    RDFNode.lit "nan" ≠ RDFNode.lit "Unknown" := by
  constructor
  · decide
  · decide

/-- C2: the mapper emits a description triple iff the record's `description`
value is present and non-empty after stringification (`str(nan)` being the
non-empty text `nan`): a missing key or a present empty string yields no
triple, and otherwise exactly one triple is emitted. -/
theorem C2_description_iff (base : String) (r : Record) (pos : Nat) :
    ((∃ v, r.lookup "description" = some v ∧ pyStr v ≠ "") →
      ((add_dataset_to_graph base r pos).filter
        (fun t => t.pred == dct_description)).length = 1) ∧
    (r.lookup "description" = none →
      (add_dataset_to_graph base r pos).filter (fun t => t.pred == dct_description) = []) ∧
    (r.lookup "description" = some (CellValue.text "") →
      (add_dataset_to_graph base r pos).filter (fun t => t.pred == dct_description) = []) ∧
    ((add_dataset_to_graph base r pos).filter (fun t => t.pred == dct_description) ≠ [] ↔
      ∃ v, r.lookup "description" = some v ∧ pyStr v ≠ "") := by
  rw [mapper_filter_description base r pos]
  refine ⟨?_, ?_, ?_, ?_⟩
  · rintro ⟨v, hv, hne⟩
    simp [descriptionPart, getStr, hv, hne]
  · intro h
    simp [descriptionPart, getStr, h]
  · intro h
    simp [descriptionPart, getStr, h, pyStr]
  · cases hv : r.lookup "description" with
    | none => simp [descriptionPart, getStr, hv]
    | some v => cases v with
      | na => simp [descriptionPart, getStr, hv, pyStr]
      | text s =>
        by_cases hs : s = ""
        · subst hs
          simp [descriptionPart, getStr, hv, pyStr]
        · simp [descriptionPart, getStr, hv, pyStr, hs]

/-- C2 witness: concrete records exercising each case of `C2_description_iff`. -/
theorem C2_description_iff_witness :
    ((add_dataset_to_graph "http://example.org/" [("description", CellValue.text "d")] 0).filter
      (fun t => t.pred == dct_description)).length = 1 ∧
    (add_dataset_to_graph "http://example.org/" [] 0).filter
      (fun t => t.pred == dct_description) = [] ∧
    (add_dataset_to_graph "http://example.org/" [("description", CellValue.text "")] 0).filter
      (fun t => t.pred == dct_description) = [] := by
  refine ⟨(C2_description_iff "http://example.org/" [("description", CellValue.text "d")] 0).1
      ⟨CellValue.text "d", rfl, by decide⟩,
    (C2_description_iff "http://example.org/" [] 0).2.1 rfl,
    (C2_description_iff "http://example.org/" [("description", CellValue.text "")] 0).2.2.1 rfl⟩

/-- C3 is false as stated: a header-only table (zero data rows) whose columns
include neither `title` nor `description` converts without any error, because
the empty-table check precedes the required-column check. -/
theorem C3_counterexample :
    ("title" ∉ (Table.mk ["publisher", "issued"] []).columns ∧
      "description" ∉ (Table.mk ["publisher", "issued"] []).columns) ∧
    convert_csv "http://example.org/" "input.csv" true
      (some (Table.mk ["publisher", "issued"] [])) [] = (Except.ok [], []) := by
  refine ⟨⟨by decide, by decide⟩, by rfl⟩

/-- C3 (amended): when the parsed table has at least one data row and at least one
column and the required columns `title`, `description` are not both present,
conversion fails with the `ValueError` that names exactly the missing required
columns (a zero-row table instead returns before the column check). -/
theorem C3_missing_columns_amended (base path : String) (df : Table) (g : Graph)
    (h1 : df.records ≠ []) (h2 : df.columns ≠ [])
    (h3 : ¬ ("title" ∈ df.columns ∧ "description" ∈ df.columns)) :
    convert_csv base path true (some df) g =
      (Except.error (ConvError.missingColumns
        (requiredColumns.filter (fun c => !(df.columns.contains c)))), g) ∧
    (∀ c, c ∈ requiredColumns.filter (fun c => !(df.columns.contains c)) ↔
      (c ∈ requiredColumns ∧ c ∉ df.columns)) ∧
    requiredColumns.filter (fun c => !(df.columns.contains c)) ≠ [] := by
  have hmem : ∀ c, c ∈ requiredColumns.filter (fun c => !(df.columns.contains c)) ↔
      (c ∈ requiredColumns ∧ c ∉ df.columns) := by
    intro c
    simp [List.mem_filter]
  have hne : requiredColumns.filter (fun c => !(df.columns.contains c)) ≠ [] := by
    intro hnil
    rcases not_and_or.mp h3 with h | h
    · have hin := (hmem "title").mpr ⟨by simp [requiredColumns], h⟩
      rw [hnil] at hin
      exact absurd hin (List.not_mem_nil "title")
    · have hin := (hmem "description").mpr ⟨by simp [requiredColumns], h⟩
      rw [hnil] at hin
      exact absurd hin (List.not_mem_nil "description")
  refine ⟨?_, hmem, hne⟩
  unfold convert_csv
  simp only [h1, h2, hne]
  simp [h1, h2]
  rcases not_and_or.mp h3 with h | h
  · exact ⟨"title", by simp [requiredColumns], h⟩
  · exact ⟨"description", by simp [requiredColumns], h⟩

/-- C3 witness: a one-row table lacking both required columns is rejected with the
error naming them both. -/
theorem C3_missing_columns_amended_witness :
    convert_csv "http://example.org/" "input.csv" true
      (some (Table.mk ["publisher"] [[("publisher", CellValue.text "X")]])) [] =
      (Except.error (ConvError.missingColumns ["title", "description"]), []) := by
  have h := C3_missing_columns_amended "http://example.org/" "input.csv"
    (Table.mk ["publisher"] [[("publisher", CellValue.text "X")]]) []
    (by simp) (by simp) (by decide)
  rw [h.1]
  rfl

/-- C9: conversion of a parsed table with zero data records returns the backing
store unchanged — the result is the very graph that was passed in, with no
triples added and no error raised. -/
theorem C9_empty_table_noop (base path : String) (df : Table) (g : Graph)
    (h : df.records = []) :
    convert_csv base path true (some df) g = (Except.ok g, g) := by
  unfold convert_csv
  simp [h]

/-- C9 witness: a header-only table leaves a (non-empty, reused) store untouched. -/
theorem C9_empty_table_noop_witness :
    convert_csv "http://example.org/" "empty.csv" true
      (some (Table.mk ["title", "description"] []))
      [⟨"s", "p", RDFNode.lit "o"⟩] =
      (Except.ok [⟨"s", "p", RDFNode.lit "o"⟩], [⟨"s", "p", RDFNode.lit "o"⟩]) :=
  C9_empty_table_noop "http://example.org/" "empty.csv"
    (Table.mk ["title", "description"] []) [⟨"s", "p", RDFNode.lit "o"⟩] rfl

/-- C10: conversion is atomic on error — whenever `convert_csv` fails (missing
file, unparsable table, or missing required columns), the converter's store
after the call is exactly the store before the call. -/
theorem C10_atomic_on_error (base path : String) (fe : Bool) (parsed : Option Table)
    (g : Graph) (e : ConvError)
    (h : (convert_csv base path fe parsed g).1 = Except.error e) :
    (convert_csv base path fe parsed g).2 = g := by
  by_cases hfe : fe = false
  · simp [convert_csv, hfe]
  · cases parsed with
    | none => simp [convert_csv, hfe]
    | some df =>
      by_cases hempty : (df.records.isEmpty || df.columns.isEmpty) = true
      · exfalso
        rw [convert_csv] at h
        simp [hfe, hempty] at h
      · by_cases hmiss :
          (requiredColumns.filter (fun c => !(df.columns.contains c))).isEmpty = true
        · exfalso
          have hall : ∀ a ∈ requiredColumns, a ∈ df.columns := by
            intro a ha
            have hnil := List.isEmpty_eq_true.mp hmiss
            rw [List.filter_eq_nil_iff] at hnil
            have ha2 := hnil a ha
            simpa using ha2
          rw [convert_csv] at h
          simp only [hfe, hempty] at h
          simp [hfe, hempty] at h
          rw [if_pos hall] at h
          simp at h
        · have hnall : ¬ ∀ a ∈ requiredColumns, a ∈ df.columns := by
            intro hall
            apply hmiss
            simp only [List.isEmpty_eq_true, List.filter_eq_nil_iff]
            intro a ha
            simp [hall a ha]
          rw [convert_csv]
          simp [hfe, hempty, hnall]

/-- C10 witness: a failing call (missing input path) leaves the store untouched. -/
theorem C10_atomic_on_error_witness :
    (convert_csv "http://example.org/" "missing.csv" false none
      [⟨"s", "p", RDFNode.lit "o"⟩]).2 = [⟨"s", "p", RDFNode.lit "o"⟩] :=
  C10_atomic_on_error "http://example.org/" "missing.csv" false none
    [⟨"s", "p", RDFNode.lit "o"⟩] (ConvError.notFound "missing.csv") rfl

/-- C4: the Theme Classifier uppercases its input before the table lookup, so any
theme string and its uppercased form classify to the same code URI; in
particular `science` and `SCIENCE` agree. -/
theorem C4_theme_uppercase_normalized :
    (∀ t : String, classifyTheme t = get_theme_uri (pyUpper t)) ∧
    (∀ t : String, classifyTheme t = classifyTheme (pyUpper t)) ∧
    classifyTheme "science" = classifyTheme "SCIENCE" := by
  refine ⟨fun t => rfl, fun t => ?_, by decide⟩
  unfold classifyTheme
  rw [pyUpper_idem]

/-- C5: the publisher resource URI is the base URI joined with
`organization/<slug>`, the slug being the original name with spaces replaced by
hyphens and then lowercased; any two names with equal slugs collapse to the
identical publisher URI, and the mapper links the dataset to exactly that URI. -/
theorem C5_publisher_slug_collapse :
    (∀ base name, publisherUri base name = urljoin base ("organization/" ++ slugify name)) ∧
    (∀ base n1 n2, slugify n1 = slugify n2 → publisherUri base n1 = publisherUri base n2) ∧
    slugify "Health Authority" = "health-authority" ∧
    slugify "health-authority" = "health-authority" ∧
    (∀ base r pos name, r.lookup "publisher" = some (CellValue.text name) →
      (⟨datasetUri base r pos, dct_publisher, RDFNode.uri (publisherUri base name)⟩ : Triple) ∈
        add_dataset_to_graph base r pos) := by
  refine ⟨fun base name => rfl, ?_, by decide, by decide, ?_⟩
  · intro base n1 n2 h
    unfold publisherUri
    rw [h]
  · intro base r pos name h
    unfold add_dataset_to_graph publisherPart
    rw [h]
    simp

/-- C5 witness: `Health Authority` and `health-authority` share a slug and thus a
publisher URI; a concrete record is linked to that URI. -/
theorem C5_publisher_slug_collapse_witness :
    publisherUri "http://example.org/" "Health Authority" =
      publisherUri "http://example.org/" "health-authority" ∧
    (⟨datasetUri "http://example.org/" [("publisher", CellValue.text "Health Authority")] 0,
        dct_publisher,
        RDFNode.uri (publisherUri "http://example.org/" "Health Authority")⟩ : Triple) ∈
      add_dataset_to_graph "http://example.org/"
        [("publisher", CellValue.text "Health Authority")] 0 :=
  ⟨C5_publisher_slug_collapse.2.1 "http://example.org/" "Health Authority" "health-authority"
      (by decide),
    C5_publisher_slug_collapse.2.2.2.2 "http://example.org/"
      [("publisher", CellValue.text "Health Authority")] 0 "Health Authority" rfl⟩

/-- C6: when `keyword` is present and not the missing-value marker, the mapper
splits the field on `;`, strips each piece, and emits one keyword literal per
piece — empty pieces included as empty-string literals. -/
theorem C6_keyword_split (base : String) (r : Record) (pos : Nat) (s : String)
    (h : r.lookup "keyword" = some (CellValue.text s)) :
    (add_dataset_to_graph base r pos).filter (fun t => t.pred == dcat_keyword) =
      (pySplit ';' s).map (fun k =>
        ⟨datasetUri base r pos, dcat_keyword, RDFNode.lit (pyStrip k)⟩) := by
  rw [mapper_filter_keyword]
  unfold keywordPart
  rw [h]

/-- C6 witness: `blood;pressure;cardiology` yields exactly three keyword literals
`blood`, `pressure`, `cardiology`. -/
theorem C6_keyword_split_witness :
    (add_dataset_to_graph "http://example.org/"
        [("keyword", CellValue.text "blood;pressure;cardiology")] 0).filter
      (fun t => t.pred == dcat_keyword) =
      [⟨"http://example.org/dataset/dataset-1", dcat_keyword, RDFNode.lit "blood"⟩,
       ⟨"http://example.org/dataset/dataset-1", dcat_keyword, RDFNode.lit "pressure"⟩,
       ⟨"http://example.org/dataset/dataset-1", dcat_keyword, RDFNode.lit "cardiology"⟩] := by
  rw [C6_keyword_split "http://example.org/"
    [("keyword", CellValue.text "blood;pressure;cardiology")] 0 "blood;pressure;cardiology" rfl]
  decide

/-- C7: when the `id` key is absent, the dataset identifier is synthesized from
the record's 0-based position as `dataset-<position+1>` and joined under the
base URI in the `dataset/` segment; the record at position 0 with no `id` under
the default base yields a URI ending in `dataset/dataset-1`. -/
theorem C7_synthesized_id (base : String) (r : Record) (pos : Nat)
    (h : r.lookup "id" = none) :
    datasetId r pos = "dataset-" ++ toString (pos + 1) ∧
    datasetUri base r pos = urljoin base ("dataset/" ++ ("dataset-" ++ toString (pos + 1))) ∧
    ((⟨datasetUri base r pos, rdf_type, RDFNode.uri dcat_Dataset⟩ : Triple) ∈
      add_dataset_to_graph base r pos) ∧
    strEndsWith (datasetUri "http://example.org/" ([] : Record) 0) "dataset/dataset-1" = true := by
  have hid : datasetId r pos = "dataset-" ++ toString (pos + 1) := by
    unfold datasetId getStr
    rw [h]
  refine ⟨hid, by unfold datasetUri; rw [hid], ?_, by decide⟩
  unfold add_dataset_to_graph typePart
  simp

/-- C7 witness: the concrete record at position 0 with no `id` field. -/
theorem C7_synthesized_id_witness :
    datasetUri "http://example.org/" ([] : Record) 0 = "http://example.org/dataset/dataset-1" := by
  rw [(C7_synthesized_id "http://example.org/" ([] : Record) 0 rfl).2.1]
  decide

/-- C8: the composed Theme Classifier is a total function: `health`, `HEALTH` and
`Medicine` all classify to the `HEAL` code URI, any input whose uppercased form
is not a key of the lookup table — the empty string included — classifies to the
default `HEAL`, and every output is the authority base followed by a slash and
one of the five table codes. -/
theorem C8_theme_total :
    classifyTheme "health" = themeAuthorityBase ++ "/" ++ "HEAL" ∧
    classifyTheme "HEALTH" = themeAuthorityBase ++ "/" ++ "HEAL" ∧
    classifyTheme "Medicine" = themeAuthorityBase ++ "/" ++ "HEAL" ∧
    classifyTheme "" = themeAuthorityBase ++ "/" ++ "HEAL" ∧
    (∀ t, theme_mapping.lookup (pyUpper t) = none →
      classifyTheme t = themeAuthorityBase ++ "/" ++ "HEAL") ∧
    (∀ t, ∃ code, classifyTheme t = themeAuthorityBase ++ "/" ++ code ∧
      code ∈ ["HEAL", "SCIE", "EDUC", "ENVI", "TECH"]) := by
  refine ⟨by decide, by decide, by decide, by decide, ?_, ?_⟩
  · intro t h
    unfold classifyTheme get_theme_uri
    rw [h]
    rfl
  · intro t
    unfold classifyTheme get_theme_uri
    cases hl : theme_mapping.lookup (pyUpper t) with
    | none => exact ⟨"HEAL", rfl, by decide⟩
    | some code =>
      refine ⟨code, rfl, ?_⟩
      have hv := lookup_mem_values (pyUpper t) code theme_mapping hl
      simp [theme_mapping] at hv
      rcases hv with h | h | h | h | h <;> subst h <;> decide

/-- C8 witness: an unrecognized label classifies to the default `HEAL` code. -/
theorem C8_theme_total_witness :
    classifyTheme "anything-unrecognized" = themeAuthorityBase ++ "/" ++ "HEAL" :=
  C8_theme_total.2.2.2.2.1 "anything-unrecognized" (by decide)

end EHDS
